import Mathlib

/-!
Verification of the homesweetpi ingestion pipeline
(`homesweetpi/retrieve_data.py` and `homesweetpi/sql_tables.py`).

Modelling conventions:

* A Python `datetime` is represented by its offset from the Unix epoch
  (1970-01-01 00:00:00) in microseconds, as an integer.  Python stores
  calendar components, but every operation the code performs on datetimes
  (component truncation, `timedelta` addition, comparison, `strftime`)
  is a function of that offset; `datetime(d.year, ..., d.second)` is the
  instant `d` with its microsecond component removed.  Calendar components
  are recovered with the standard civil-from-days algorithm where the code
  formats a datetime.
* A pandas `DataFrame` is a list of rows, each row an association list
  from column name to value; the column set of a frame is the column list
  of its first row (payload frames parsed from a column-oriented JSON
  object have uniform columns by construction).
* Python exceptions are represented by their class; `except C` catches a
  raised instance of class `E` iff `C` is an ancestor of `E`.  The class
  hierarchy below records the real ancestry: the builtin
  `ConnectionError` subclasses `OSError`, while
  `requests.exceptions.ConnectionError` subclasses
  `requests.exceptions.RequestException`, which subclasses `IOError`
  (= `OSError`) — it is *not* a subclass of the builtin `ConnectionError`.
* Fallible code returns `Except ExcClass α`; float measurement values are
  represented by rationals (no float arithmetic is performed anywhere in
  the modelled code paths).
-/

/-- A scalar value held in a dataframe cell (string, integer, numeric or
null/NaN). -/
inductive Val where
  | vStr (s : String)
  | vInt (n : ℤ)
  | vRat (q : ℚ)
  | vNull
deriving DecidableEq, Repr

/-- A dataframe row: an association list from column name to value. -/
abbrev Row : Type := List (String × Val)

/-- The value a row holds in a given column, if present. -/
def lookupCol (r : Row) (c : String) : Option Val :=
  (r.find? (fun p => p.1 = c)).map (fun p => p.2)

/-- The column list of a dataframe: the column names of its first row
(frames built from a column-oriented JSON payload have uniform columns). -/
def dfColumns : List Row → List String
  | [] => []
  | r :: _ => r.map (fun p => p.1)

/-- Remove the named columns from a row (the row-wise effect of
`DataFrame.drop(cols, axis=1)`). -/
def removeCols (cs : List String) (r : Row) : Row :=
  r.filter (fun p => ¬ (p.1 ∈ cs))

/-- Python exception classes appearing in the modelled code, identified by
class. -/
inductive ExcClass where
  | baseException
  | exception
  | osError
  | connectionError          -- the *builtin* ConnectionError
  | requestException         -- requests.exceptions.RequestException
  | requestsConnectionError  -- requests.exceptions.ConnectionError
  | attributeError
  | keyError
  | typeError
  | valueError
  | integrityError           -- sqlalchemy.exc.IntegrityError
  | noResultFound            -- sqlalchemy.orm.exc.NoResultFound
deriving DecidableEq, Repr

/-- The ancestor classes (the method-resolution order) of each exception
class.  Sources: CPython builtins (`ConnectionError(OSError)`);
`requests/exceptions.py` (`RequestException(IOError)`,
`ConnectionError(RequestException)` — so requests' ConnectionError is NOT
a subclass of the builtin ConnectionError). -/
def ancestors : ExcClass → List ExcClass
  | .baseException => [.baseException]
  | .exception => [.exception, .baseException]
  | .osError => [.osError, .exception, .baseException]
  | .connectionError => [.connectionError, .osError, .exception, .baseException]
  | .requestException => [.requestException, .osError, .exception, .baseException]
  | .requestsConnectionError =>
      [.requestsConnectionError, .requestException, .osError, .exception,
       .baseException]
  | .attributeError => [.attributeError, .exception, .baseException]
  | .keyError => [.keyError, .exception, .baseException]
  | .typeError => [.typeError, .exception, .baseException]
  | .valueError => [.valueError, .exception, .baseException]
  | .integrityError => [.integrityError, .exception, .baseException]
  | .noResultFound => [.noResultFound, .exception, .baseException]

/-- `except handler:` catches a raised instance of class `raised` iff
`handler` is an ancestor of `raised`. -/
def catches (handler raised : ExcClass) : Bool :=
  handler ∈ ancestors raised

/-! ## Datetimes (`retrieve_data.round_up_seconds` and formatting) -/

/-- The `microsecond` component of a datetime given as a microsecond
offset `t` from the epoch: always in `[0, 10^6)`, also before 1970. -/
def pyMicrosecond (t : ℤ) : ℤ := t % 1000000

/-- `datetime(d.year, d.month, d.day, d.hour, d.minute, d.second)`:
the instant `d` with its sub-second component removed. -/
def truncSeconds (t : ℤ) : ℤ := t - pyMicrosecond t

/-- `retrieve_data.round_up_seconds`: rebuild the datetime from its
components down to whole seconds, then add `timedelta(seconds=1)`. -/
def round_up_seconds (t : ℤ) : ℤ := truncSeconds t + 1000000

/-- Civil calendar date (year, month, day) from a count of days since
1970-01-01, by the standard days-to-civil algorithm. -/
def civilFromDays (z : ℤ) : ℤ × ℤ × ℤ :=
  let z' := z + 719468
  let era := z'.fdiv 146097
  let doe := z' - era * 146097
  let yoe := (doe - doe / 1460 + doe / 36524 - doe / 146096) / 365
  let y := yoe + era * 400
  let doy := doe - (365 * yoe + yoe / 4 - yoe / 100)
  let mp := (5 * doy + 2) / 153
  let d := doy - (153 * mp + 2) / 5 + 1
  let m := mp + (if mp < 10 then 3 else -9)
  (y + (if m ≤ 2 then 1 else 0), m, d)

/-- Zero-pad the decimal representation of a nonnegative integer to
width `w`. -/
def padInt (w : ℕ) (n : ℤ) : String :=
  let s := toString n.toNat
  String.mk (List.replicate (w - s.length) '0') ++ s

/-- `datetime.strftime('%Y%m%d%H%M%S')` on a microsecond offset. -/
def strftimeYmdHMS (t : ℤ) : String :=
  let days := t.fdiv 86400000000
  let ymd := civilFromDays days
  let secs := (t - days * 86400000000) / 1000000
  padInt 4 ymd.1 ++ padInt 2 ymd.2.1 ++ padInt 2 ymd.2.2 ++
    padInt 2 (secs / 3600) ++ padInt 2 (secs / 60 % 60) ++ padInt 2 (secs % 60)

/-- `datetime.strftime("%d.%m.%Y %H:%M:%S")` (used by
`Measurement.get_row`). -/
def strftimeDMYHMS (t : ℤ) : String :=
  let days := t.fdiv 86400000000
  let ymd := civilFromDays days
  let secs := (t - days * 86400000000) / 1000000
  padInt 2 ymd.2.2 ++ "." ++ padInt 2 ymd.2.1 ++ "." ++ padInt 4 ymd.1 ++ " " ++
    padInt 2 (secs / 3600) ++ ":" ++ padInt 2 (secs / 60 % 60) ++ ":" ++
    padInt 2 (secs % 60)

/-- The fetch URL built by `fetch_recent_data` (lines 44–46):
`f"http://{ipaddr}:{port}/get_recent/{query_time.strftime('%Y%m%d%H%M%S')}"`. -/
def buildUrl (ipaddr : String) (port : ℕ) (queryTime : ℤ) : String :=
  "http://" ++ ipaddr ++ ":" ++ toString port ++ "/get_recent/" ++
    strftimeYmdHMS queryTime

/-! ## Payload normalization (`fetch_recent_data`, lines 56–72) -/

/-- One row of the sensors dataframe produced by
`sql_tables.get_sensors_on_pi`: columns `sensorid`, `location`, `piname`. -/
structure SensorRow where
  sensorid : ℤ
  location : String
  piname : String
deriving DecidableEq, Repr

/-- The four device-identifying columns dropped after the merge
(line 65–66 of `retrieve_data.py`). -/
def dropList : List String := ["piname", "location", "sensortype", "pi_id"]

/-- `pd.to_datetime(recent_data['datetime'], unit="ms")` on one row:
the `datetime` cell, an integer count of milliseconds since the epoch in
the device payload, becomes an absolute timestamp (microseconds here). -/
def msToTimestamp (r : Row) : Row :=
  r.map (fun p => if p.1 = "datetime" then
    (p.1, match p.2 with
          | Val.vInt ms => Val.vInt (ms * 1000)
          | v => v)
    else p)

/-- Does a raw row match a sensors-frame row on the merge keys
`['location', 'piname']`? -/
def rowMatches (r : Row) (s : SensorRow) : Bool :=
  lookupCol r "location" = some (Val.vStr s.location) &&
    lookupCol r "piname" = some (Val.vStr s.piname)

/-- `recent_data.merge(sensors, on=['location', 'piname'])`: inner join,
left-row-major order; each matching sensors row contributes its only
non-key column, `sensorid`, appended after the left columns. -/
def mergeSensors (raw : List Row) (sensors : List SensorRow) : List Row :=
  raw.flatMap (fun r =>
    (sensors.filter (fun s => rowMatches r s)).map
      (fun s => r ++ [("sensorid", Val.vInt s.sensorid)]))

/-- The deduplication key of `drop_duplicates(subset=['datetime',
'sensorid'])`. -/
def dedupKey (r : Row) : Option Val × Option Val :=
  (lookupCol r "datetime", lookupCol r "sensorid")

/-- Keep the first row of each `dedupKey` class, dropping later
duplicates (`drop_duplicates` keeps the first occurrence by default). -/
def dedupAux (seen : List (Option Val × Option Val)) :
    List Row → List Row
  | [] => []
  | r :: rest =>
      if dedupKey r ∈ seen then dedupAux seen rest
      else r :: dedupAux (dedupKey r :: seen) rest

/-- `drop_duplicates(subset=['datetime', 'sensorid'])`. -/
def dropDuplicates (rows : List Row) : List Row := dedupAux [] rows

/-- A cell that `pd.to_datetime(..., unit="ms")` cannot convert: a
string raises `ValueError` ("non convertible value with the unit ms");
integer (and numeric) cells convert, and nulls become `NaT`. -/
def nonConvertibleCell : Val → Bool
  | Val.vStr _ => true
  | _ => false

/-- A row entry that makes the `datetime` column conversion raise. -/
def badDatetimeEntry (p : String × Val) : Bool :=
  p.1 = "datetime" && nonConvertibleCell p.2

/-- Does the frame hold a `datetime` cell on which
`pd.to_datetime(..., unit="ms")` raises `ValueError`? -/
def hasNonConvertibleDatetime (raw : List Row) : Bool :=
  raw.any (fun r => r.any badDatetimeEntry)

/-- The table-processing block of `fetch_recent_data` (lines 58–72),
applied to the parsed column-oriented payload: build the frame, convert
the `datetime` column from milliseconds (`KeyError` when the column is
absent, `ValueError` when a cell is not convertible), inner-join against
the sensors frame on `['location', 'piname']` (`KeyError` when a key
column is absent from the raw frame, or when the sensors frame is the
empty column-less frame that `get_sensors_on_pi` yields for a pi with no
sensors), drop the device-identifying columns (`KeyError` when absent —
they belong to the raw frame, so they survive the merge whenever the raw
frame has them), and deduplicate. -/
def processTableE (raw : List Row) (sensors : List SensorRow) :
    Except ExcClass (List Row) :=
  if "datetime" ∈ dfColumns raw then
    if hasNonConvertibleDatetime raw then Except.error ExcClass.valueError
    else
      if ("location" ∈ dfColumns raw ∧ "piname" ∈ dfColumns raw) ∧
          sensors ≠ [] then
        if dropList.all (fun c => c ∈ dfColumns raw ++ ["sensorid"]) then
          Except.ok (dropDuplicates
            ((mergeSensors (raw.map msToTimestamp) sensors).map
              (removeCols dropList)))
        else Except.error ExcClass.keyError
      else Except.error ExcClass.keyError
  else Except.error ExcClass.keyError

/-! ## The fetch itself (`fetch_recent_data`, lines 39–75) -/

/-- The value produced by `response.json()`: the device either returns a
JSON string that itself encodes a column-oriented table (parsed here into
its rows) or a one-key error object `{"message": ...}`. -/
inductive PyJson where
  | tableStr (rows : List Row)
  | msgDict (msg : String)
deriving DecidableEq, Repr

/-- `len(recent_data)` after `response.json()`: the length of the
JSON-encoded table string — at least the two brace characters, hence
always `> 1` (modelled as 2) — or the number of keys of the one-key
error object. -/
def pyLen : PyJson → ℕ
  | .tableStr _ => 2
  | .msgDict _ => 1

/-! ## The measurement store (`sql_tables.py`) -/

/-- A row of the `raspberrypis` table. -/
structure PiRec where
  id : String
  name : String
  ipaddress : String
deriving DecidableEq, Repr

/-- A row of the `sensors` table. -/
structure SensorRec where
  id : ℤ
  location : String
  stype : String
  pin : Option ℤ
  piid : String
deriving DecidableEq, Repr

/-- A row of the `measurements` table. -/
structure Meas where
  sensorid : ℤ
  datetime : ℤ
  temp : Option ℚ
  humidity : Option ℚ
  pressure : Option ℚ
  gasvoc : Option ℚ
  mcdvalue : Option ℤ
  mcdvoltage : Option ℚ
deriving DecidableEq, Repr

/-- The database state. -/
structure DB where
  pis : List PiRec
  sensors : List SensorRec
  measurements : List Meas
deriving DecidableEq, Repr

/-- `sql_tables.get_ip_addr`: `query.first().ipaddress` for the pi with
the given id (`first()` yields the row, or `None` — attribute access on
`None` would raise, so the address is only defined when the pi exists). -/
def get_ip_addr (db : DB) (piid : String) : Option String :=
  (db.pis.find? (fun p => p.id = piid)).map (fun p => p.ipaddress)

/-- `sql_tables.get_sensors_on_pi`: join `sensors` with `raspberrypis`,
filter on the pi id, and keep `(sensors.id, location, name)` renamed to
`(sensorid, location, piname)`. -/
def get_sensors_on_pi (db : DB) (piid : String) : List SensorRow :=
  (db.sensors.filter (fun s => s.piid = piid)).filterMap
    (fun s => (db.pis.find? (fun p => p.id = s.piid)).map
      (fun p => SensorRow.mk s.id s.location p.name))

/-- `query.order_by(Measurement.datetime.desc()).first()`: an element of
maximal `datetime` (the leftmost one among ties). -/
def firstByDatetimeDesc : List Meas → Option Meas
  | [] => none
  | m :: rest =>
      match firstByDatetimeDesc rest with
      | none => some m
      | some b => if b.datetime > m.datetime then some b else some m

/-- The rows of `measurements` reached by
`query(Measurement).join(Sensor).join(RaspberryPi)
.filter(Sensor.piid == piid)`: measurements whose sensor row exists,
belongs to the given pi, and whose pi row exists. -/
def piCandidates (db : DB) (piid : String) : List Meas :=
  db.measurements.filter (fun m =>
    db.sensors.any (fun s => s.id = m.sensorid && s.piid = piid &&
      db.pis.any (fun p => p.id = s.piid)))

/-- `sql_tables.get_last_time`: the datetime of the most recent reading
for a pi, or `datetime(1970, 1, 1)` (offset 0) when there is none. -/
def get_last_time (db : DB) (piid : String) : ℤ :=
  match firstByDatetimeDesc (piCandidates db piid) with
  | some m => m.datetime
  | none => 0

/-- The dictionary built by `Measurement.get_row`: the measurement's own
columns plus the sensor's location and the hosting pi's name, reached
through the ORM relationships. -/
structure RowDict where
  datetime : ℤ
  strftime : String
  sensorid : ℤ
  sensorlocation : String
  piname : String
  temp : Option ℚ
  humidity : Option ℚ
  pressure : Option ℚ
  gasvoc : Option ℚ
  mcdvalue : Option ℤ
  mcdvoltage : Option ℚ
deriving DecidableEq, Repr

/-- `Measurement.get_row`, defined when the relationship rows exist. -/
def get_row (db : DB) (m : Meas) : Option RowDict :=
  (db.sensors.find? (fun s => s.id = m.sensorid)).bind (fun s =>
    (db.pis.find? (fun p => p.id = s.piid)).map (fun p =>
      RowDict.mk m.datetime (strftimeDMYHMS m.datetime) m.sensorid
        s.location p.name m.temp m.humidity m.pressure m.gasvoc
        m.mcdvalue m.mcdvoltage))

/-- The rows reached by the query of `get_last_measurement_for_sensor`:
`join(Sensor).join(RaspberryPi).filter(Sensor.id == sensorid)`. -/
def sensorCandidates (db : DB) (sensorid : ℤ) : List Meas :=
  db.measurements.filter (fun m =>
    db.sensors.any (fun s => s.id = m.sensorid && s.id = sensorid &&
      db.pis.any (fun p => p.id = s.piid)))

/-- `sql_tables.get_last_measurement_for_sensor`: `query.first()` yields
`None` (not a `NoResultFound`) when the sensor has no measurements, so
`None.get_row()` raises `AttributeError`; the `except NoResultFound`
handler never fires.  On success the `get_row` dictionary is returned. -/
def get_last_measurement_for_sensor (db : DB) (sensorid : ℤ) :
    Except ExcClass (Option RowDict) :=
  match firstByDatetimeDesc (sensorCandidates db sensorid) with
  | none => Except.error ExcClass.attributeError
  | some m =>
      match get_row db m with
      | none => Except.error ExcClass.attributeError
      | some r => Except.ok (some r)

/-- Does inserting `rows` into `measurements` violate the
`(sensorid, datetime)` primary key — against an existing row or between
two inserted rows? -/
def insertConflict (existing rows : List Meas) : Bool :=
  rows.any (fun n => existing.any (fun e =>
      e.sensorid = n.sensorid && e.datetime = n.datetime)) ||
    ¬ (rows.Pairwise (fun a b =>
        ¬ (a.sensorid = b.sensorid ∧ a.datetime = b.datetime)))

/-- `sql_tables.save_recent_data`: `to_sql(..., if_exists="append")` in
one transaction; a duplicate-key `IntegrityError` rolls everything back
and the function returns `False`, otherwise the rows are appended and it
returns `True`. -/
def save_recent_data (rows : List Meas) (db : DB) : DB × Bool :=
  if insertConflict db.measurements rows then (db, false)
  else ({ db with measurements := db.measurements ++ rows }, true)

/-! ## `fetch_recent_data` with its exception flow -/

/-- `retrieve_data.fetch_recent_data`: resolve the address, build the
URL, perform the GET (`net` maps the URL to the outcome of
`requests.get(url).json()`), substitute the sentinel message only when
the raised class is caught by `except ConnectionError` (the *builtin*
class), then either process the table (`len > 1`) or return `None`.
`json.loads` applied to the one-key dict (not a string) would raise
`TypeError`, but that branch requires `len > 1` and is unreachable. -/
def fetch_recent_data (db : DB) (piId : String) (queryTime : ℤ)
    (port : ℕ) (net : String → Except ExcClass PyJson) :
    Except ExcClass (Option (List Row)) :=
  match get_ip_addr db piId with
  | none => Except.error ExcClass.attributeError
  | some ipaddr =>
      let url := buildUrl ipaddr port queryTime
      let tried : Except ExcClass PyJson :=
        match net url with
        | Except.ok v => Except.ok v
        | Except.error e =>
            if catches ExcClass.connectionError e then
              Except.ok (PyJson.msgDict ("Could not connect to " ++ ipaddr))
            else Except.error e
      match tried with
      | Except.error e => Except.error e
      | Except.ok j =>
          if pyLen j > 1 then
            match j with
            | PyJson.tableStr rows =>
                (processTableE rows (get_sensors_on_pi db piId)).map
                  (fun t => some t)
            | PyJson.msgDict _ => Except.error ExcClass.typeError
          else Except.ok none

/-! ## The ingestion loop (`retrieve_data.py`, `__main__`, lines 95–114) -/

/-- The outcome of step 3 (fetch) for one device: `fetch_recent_data`
either returns (no data, or a frame) or raises. -/
inductive FetchOutcome where
  | returns (v : Option (List Meas))
  | raises (e : ExcClass)
deriving DecidableEq, Repr

/-- The outcome of step 4 (store) for one device: `to_sql` either
succeeds or raises. -/
inductive SaveOutcome where
  | succeeds
  | raisesE (e : ExcClass)
deriving DecidableEq, Repr

/-- What one cycle of the loop did: which devices were polled, which
produced a stored row, and the exception that aborted the cycle, if any. -/
structure CycleResult where
  polled : List String
  saved : List String
  aborted : Option ExcClass
deriving DecidableEq, Repr

/-- One cycle of the `while True:` loop, over the device ids in order:
fetch (no surrounding handler — a raise aborts the cycle), then, when
data was returned, `to_sql` guarded only by
`except sqlalchemy.exc.IntegrityError`. -/
def runCycle (ids : List String) (fetch : String → FetchOutcome)
    (save : String → SaveOutcome) : CycleResult :=
  match ids with
  | [] => CycleResult.mk [] [] none
  | pi :: rest =>
      match fetch pi with
      | FetchOutcome.raises e => CycleResult.mk [pi] [] (some e)
      | FetchOutcome.returns none =>
          let r := runCycle rest fetch save
          CycleResult.mk (pi :: r.polled) r.saved r.aborted
      | FetchOutcome.returns (some _) =>
          match save pi with
          | SaveOutcome.succeeds =>
              let r := runCycle rest fetch save
              CycleResult.mk (pi :: r.polled) (pi :: r.saved) r.aborted
          | SaveOutcome.raisesE e =>
              if catches ExcClass.integrityError e then
                let r := runCycle rest fetch save
                CycleResult.mk (pi :: r.polled) r.saved r.aborted
              else CycleResult.mk [pi] [] (some e)

/-! ## Concrete sample data used by witnesses and counterexamples -/

/-- A raw payload row for device `p1` (shape of the device payload: local
row id, millisecond timestamp, location, sensor type, device name, device
id, measurement fields). -/
def sampleRow1 : Row :=
  [("id", Val.vInt 101), ("datetime", Val.vInt 1000),
   ("location", Val.vStr "bay"), ("sensortype", Val.vStr "MCP"),
   ("piname", Val.vStr "catflap"), ("pi_id", Val.vStr "p1"),
   ("temp", Val.vNull)]

/-- A raw payload row carrying a different device id (`p2`). -/
def sampleRow2 : Row :=
  [("id", Val.vInt 102), ("datetime", Val.vInt 2000),
   ("location", Val.vStr "allo"), ("sensortype", Val.vStr "MCP"),
   ("piname", Val.vStr "otherpi"), ("pi_id", Val.vStr "p2"),
   ("temp", Val.vNull)]

/-- The sensors frame for device `p1`. -/
def sampleSensors : List SensorRow := [SensorRow.mk 5 "bay" "catflap"]

/-- The canonical row `fetch_recent_data` produces from `sampleRow1`. -/
def sampleOut : Row :=
  [("id", Val.vInt 101), ("datetime", Val.vInt 1000000),
   ("temp", Val.vNull), ("sensorid", Val.vInt 5)]

/-- A database with one pi, one sensor and no stored measurements. -/
def sampleDb : DB :=
  DB.mk [PiRec.mk "p1" "catflap" "10.0.0.7"]
    [SensorRec.mk 5 "bay" "MCP" (some 0) "p1"] []

/-- A measurement row for sensor 5. -/
def sampleMeas : Meas :=
  Meas.mk 5 1000000 (some (21 / 2)) none none none (some 64576)
    (some (13 / 4))

/-! ## Helper lemmas -/

/-- Unfolding an accepted run of the table-processing block. -/
theorem processTableE_ok_eq (raw : List Row) (sensors : List SensorRow)
    (out : List Row) (h : processTableE raw sensors = Except.ok out) :
    out = dropDuplicates ((mergeSensors (raw.map msToTimestamp)
      sensors).map (removeCols dropList)) := by
  unfold processTableE at h
  split at h
  · split at h
    · exact Except.noConfusion h
    · split at h
      · split at h
        · injection h with h'
          exact h'.symm
        · exact Except.noConfusion h
      · exact Except.noConfusion h
  · exact Except.noConfusion h

/-- Deduplication yields pairwise-distinct keys, none of them previously
seen. -/
theorem dedupAux_pairwise (l : List Row)
    (seen : List (Option Val × Option Val)) :
    (dedupAux seen l).Pairwise (fun a b => dedupKey a ≠ dedupKey b) ∧
      ∀ r ∈ dedupAux seen l, dedupKey r ∉ seen := by
  induction l generalizing seen with
  | nil => simp [dedupAux]
  | cons r rest ih =>
      unfold dedupAux
      by_cases hk : dedupKey r ∈ seen
      · rw [if_pos hk]
        exact ⟨(ih seen).1, (ih seen).2⟩
      · rw [if_neg hk]
        obtain ⟨hp, hnot⟩ := ih (dedupKey r :: seen)
        refine ⟨List.Pairwise.cons ?_ hp, ?_⟩
        · intro b hb hbe
          exact hnot b hb (hbe ▸ List.mem_cons_self _ _)
        · intro x hx
          rcases List.mem_cons.mp hx with rfl | hx'
          · exact hk
          · intro hxs
            exact hnot x hx' (List.mem_cons_of_mem _ hxs)

/-- Every surviving row of the deduplication was an input row. -/
theorem dedupAux_subset (l : List Row)
    (seen : List (Option Val × Option Val)) :
    ∀ r ∈ dedupAux seen l, r ∈ l := by
  induction l generalizing seen with
  | nil => simp [dedupAux]
  | cons r rest ih =>
      unfold dedupAux
      by_cases hk : dedupKey r ∈ seen
      · rw [if_pos hk]
        intro x hx
        exact List.mem_cons_of_mem _ (ih seen x hx)
      · rw [if_neg hk]
        intro x hx
        rcases List.mem_cons.mp hx with rfl | hx'
        · exact List.mem_cons_self _ _
        · exact List.mem_cons_of_mem _ (ih _ x hx')

/-- Membership in the merge result: each output row is a raw row that
matched a sensors row, extended with that sensor's id. -/
theorem mem_mergeSensors (raw : List Row) (sensors : List SensorRow)
    (m : Row) (h : m ∈ mergeSensors raw sensors) :
    ∃ r ∈ raw, ∃ s ∈ sensors, rowMatches r s = true ∧
      m = r ++ [("sensorid", Val.vInt s.sensorid)] := by
  unfold mergeSensors at h
  rcases List.mem_flatMap.mp h with ⟨r, hr, hm⟩
  rcases List.mem_map.mp hm with ⟨s, hs, rfl⟩
  rcases List.mem_filter.mp hs with ⟨hsmem, hmatch⟩
  exact ⟨r, hr, s, hsmem, hmatch, rfl⟩

/-- A column removed by `removeCols` is absent from the resulting row. -/
theorem lookupCol_removeCols (r : Row) (cs : List String) (c : String)
    (hc : c ∈ cs) : lookupCol (removeCols cs r) c = none := by
  induction r with
  | nil => rfl
  | cons p rest ih =>
      by_cases hm : p.1 ∈ cs
      · simpa [removeCols, List.filter_cons, hm] using ih
      · have hpc : ¬ p.1 = c := fun h => hm (h ▸ hc)
        simpa [removeCols, List.filter_cons, hm, lookupCol,
          List.find?_cons, hpc] using ih

/-! ## Claim C1 -/

/-- Claim C1 (refuted — code bug): the claim says a connection failure of
the GET never raises to the caller of `fetch_recent_data`.  The handler
is `except ConnectionError` with the *builtin* class, but `requests.get`
raises `requests.exceptions.ConnectionError`, which is not a subclass of
the builtin `ConnectionError`, so the handler never fires and the
exception propagates: at a device whose address refuses connections the
call raises instead of returning the sentinel no-data result. -/
theorem C1_connection_error_propagates :
    catches ExcClass.connectionError ExcClass.requestsConnectionError
      = false ∧
    fetch_recent_data sampleDb "p1" 0 5002
      (fun _ => Except.error ExcClass.requestsConnectionError) =
      Except.error ExcClass.requestsConnectionError := by
  constructor
  · rfl
  · rfl

/-! ## Claim C2 -/

/-- A cycle in which device `A`'s fetch raises (as it does on a real
connection failure, by C1) and device `B` would return data. -/
def cexFetch : String → FetchOutcome := fun pi =>
  if pi = "A" then FetchOutcome.raises ExcClass.requestsConnectionError
  else FetchOutcome.returns (some [sampleMeas])

/-- Storage succeeds for every device in the C2 counterexample. -/
def cexSave : String → SaveOutcome := fun _ => SaveOutcome.succeeds

/-- Claim C2 counterexample: with devices `[A, B]`, a raising fetch for
`A` aborts the cycle before `B` is polled, so the claimed isolation for
*every* outcome of steps 3–4 fails. -/
theorem C2_counterexample :
    (runCycle ["A", "B"] cexFetch cexSave).polled = ["A"] ∧
    "B" ∉ (runCycle ["A", "B"] cexFetch cexSave).polled ∧
    (runCycle ["A", "B"] cexFetch cexSave).aborted =
      some ExcClass.requestsConnectionError := by
  decide

/-- Claim C2 (amended): within one cycle, per-device failures are
isolated only across the outcomes the loop handles — whenever every
fetch returns (data or no data) rather than raising, and every storage
failure is an `IntegrityError`, all devices are polled, the cycle does
not abort, and every device whose fetch returned data and whose save
succeeded has a stored row; an exception escaping the fetch, or a
non-`IntegrityError` storage failure, aborts the whole cycle. -/
theorem C2_isolation_for_handled_outcomes (ids : List String)
    (fetch : String → FetchOutcome) (save : String → SaveOutcome)
    (hf : ∀ pi ∈ ids, ∃ v, fetch pi = FetchOutcome.returns v)
    (hs : ∀ pi ∈ ids, ∀ e, save pi = SaveOutcome.raisesE e →
      catches ExcClass.integrityError e = true) :
    (runCycle ids fetch save).polled = ids ∧
    (runCycle ids fetch save).aborted = none ∧
    ∀ pi ∈ ids, (∃ d, fetch pi = FetchOutcome.returns (some d)) →
      save pi = SaveOutcome.succeeds →
      pi ∈ (runCycle ids fetch save).saved := by
  induction ids with
  | nil => exact ⟨rfl, rfl, by intro pi hpi; cases hpi⟩
  | cons pi rest ih =>
      obtain ⟨v, hv⟩ := hf pi (List.mem_cons_self _ _)
      have ihr := ih (fun q hq => hf q (List.mem_cons_of_mem _ hq))
        (fun q hq => hs q (List.mem_cons_of_mem _ hq))
      cases v with
      | none =>
          simp only [runCycle, hv]
          refine ⟨by rw [ihr.1], ihr.2.1, ?_⟩
          intro q hq hd hsv
          rcases List.mem_cons.mp hq with rfl | hq'
          · obtain ⟨d, hd⟩ := hd
            rw [hv] at hd
            exact Option.noConfusion (FetchOutcome.returns.inj hd)
          · exact ihr.2.2 q hq' hd hsv
      | some data =>
          cases hsv : save pi with
          | succeeds =>
              simp only [runCycle, hv, hsv]
              refine ⟨by rw [ihr.1], ihr.2.1, ?_⟩
              intro q hq hd hsq
              rcases List.mem_cons.mp hq with rfl | hq'
              · exact List.mem_cons_self _ _
              · exact List.mem_cons_of_mem _ (ihr.2.2 q hq' hd hsq)
          | raisesE e =>
              have hce := hs pi (List.mem_cons_self _ _) e hsv
              simp only [runCycle, hv, hsv, hce, if_true]
              refine ⟨by rw [ihr.1], ihr.2.1, ?_⟩
              intro q hq hd hsq
              rcases List.mem_cons.mp hq with rfl | hq'
              · rw [hsv] at hsq
                exact SaveOutcome.noConfusion hsq
              · exact ihr.2.2 q hq' hd hsq

/-- Witness for the amended C2 at a concrete cycle. -/
theorem C2_isolation_witness :
    (runCycle ["A", "B"] (fun _ => FetchOutcome.returns none)
      (fun _ => SaveOutcome.succeeds)).polled = ["A", "B"] :=
  (C2_isolation_for_handled_outcomes ["A", "B"]
    (fun _ => FetchOutcome.returns none) (fun _ => SaveOutcome.succeeds)
    (fun _ _ => ⟨none, rfl⟩)
    (fun _ _ _ h => SaveOutcome.noConfusion h)).1

/-! ## Claim C3 -/

/-- Claim C3 counterexample: a payload whose two rows carry two distinct
device ids is processed without raising — the normalizer returns the rows
matching the polled device's registry and silently drops the rest; no
"fail loudly" check exists. -/
theorem C3_counterexample :
    lookupCol sampleRow1 "pi_id" = some (Val.vStr "p1") ∧
    lookupCol sampleRow2 "pi_id" = some (Val.vStr "p2") ∧
    processTableE [sampleRow1, sampleRow2] sampleSensors =
      Except.ok [sampleOut] :=
  ⟨rfl, rfl, rfl⟩

/-- Rewrite the value held in a row's `pi_id` entries, leaving every
other entry (and every column name) unchanged. -/
def setPiId (r : Row) (v : Val) : Row :=
  r.map (fun p => if p.1 = "pi_id" then (p.1, v) else p)

/-- `setPiId` preserves the column names of a row. -/
theorem setPiId_keys (r : Row) (v : Val) :
    (setPiId r v).map (fun p => p.1) = r.map (fun p => p.1) := by
  unfold setPiId
  induction r with
  | nil => rfl
  | cons p rest ih =>
      simp only [List.map_cons]
      rw [ih]
      congr 1
      by_cases h : p.1 = "pi_id"
      · rw [if_pos h]
      · rw [if_neg h]

/-- `setPiId` preserves the column list of a frame. -/
theorem dfColumns_setPiId (raw : List Row) (g : Row → Val) :
    dfColumns (raw.map (fun r => setPiId r (g r))) = dfColumns raw := by
  cases raw with
  | nil => rfl
  | cons r rest => exact setPiId_keys r (g r)

/-- `setPiId` touches no `datetime` cell, so it cannot create or remove
a non-convertible datetime entry in a row. -/
theorem any_bad_setPiId (r : Row) (v : Val) :
    (setPiId r v).any badDatetimeEntry = r.any badDatetimeEntry := by
  unfold setPiId
  induction r with
  | nil => rfl
  | cons p rest ih =>
      simp only [List.map_cons, List.any_cons]
      rw [ih]
      congr 1
      by_cases h : p.1 = "pi_id"
      · rw [if_pos h]
        unfold badDatetimeEntry
        rw [h]
        simp
      · rw [if_neg h]

/-- `setPiId` cannot create or remove a `ValueError` of the datetime
conversion. -/
theorem hasNonConv_setPiId (raw : List Row) (g : Row → Val) :
    hasNonConvertibleDatetime (raw.map (fun r => setPiId r (g r))) =
      hasNonConvertibleDatetime raw := by
  unfold hasNonConvertibleDatetime
  induction raw with
  | nil => rfl
  | cons r rest ih =>
      simp only [List.map_cons, List.any_cons]
      rw [ih, any_bad_setPiId]

/-- The datetime conversion and the `pi_id` rewrite act on different
entries, so they commute. -/
theorem msToTimestamp_setPiId (r : Row) (v : Val) :
    msToTimestamp (setPiId r v) = setPiId (msToTimestamp r) v := by
  unfold msToTimestamp setPiId
  induction r with
  | nil => rfl
  | cons p rest ih =>
      rcases p with ⟨n, w⟩
      simp only [List.map_cons]
      rw [ih]
      congr 1
      have hne : ¬ ("pi_id" : String) = "datetime" := by decide
      by_cases h1 : n = "pi_id"
      · subst h1
        simp [hne]
      · by_cases h2 : n = "datetime"
        · subst h2
          simp [h1]
        · simp [h1, h2]

/-- `lookupCol` on a nonempty row, by cases on the head entry. -/
theorem lookupCol_cons (p : String × Val) (l : List (String × Val))
    (c : String) :
    lookupCol (p :: l) c =
      if p.1 = c then some p.2 else lookupCol l c := by
  by_cases h : p.1 = c
  · rw [if_pos h]
    have e : List.find? (fun q => decide (q.1 = c)) (p :: l) = some p :=
      List.find?_cons_of_pos _ (by simpa using h)
    unfold lookupCol
    rw [e]
    rfl
  · rw [if_neg h]
    have e : List.find? (fun q => decide (q.1 = c)) (p :: l) =
        List.find? (fun q => decide (q.1 = c)) l :=
      List.find?_cons_of_neg _ (by simpa using h)
    unfold lookupCol
    rw [e]

/-- `lookupCol` of any column other than `pi_id` is unchanged by
`setPiId`. -/
theorem lookupCol_setPiId (r : Row) (v : Val) (c : String)
    (hc : ¬ c = "pi_id") : lookupCol (setPiId r v) c = lookupCol r c := by
  induction r with
  | nil => rfl
  | cons p rest ih =>
      rcases p with ⟨n, w⟩
      show lookupCol ((if n = "pi_id" then (n, v) else (n, w)) ::
        setPiId rest v) c = lookupCol ((n, w) :: rest) c
      by_cases h1 : n = "pi_id"
      · rw [if_pos h1, lookupCol_cons, lookupCol_cons]
        show (if n = c then some v else lookupCol (setPiId rest v) c) =
          (if n = c then some w else lookupCol rest c)
        have hq : ¬ n = c := fun h => hc (h ▸ h1)
        rw [if_neg hq, if_neg hq]
        exact ih
      · rw [if_neg h1, lookupCol_cons, lookupCol_cons]
        show (if n = c then some w else lookupCol (setPiId rest v) c) =
          (if n = c then some w else lookupCol rest c)
        by_cases h2 : n = c
        · rw [if_pos h2, if_pos h2]
        · rw [if_neg h2, if_neg h2]
          exact ih

/-- The merge predicate reads only `location` and `piname`, so it is
unchanged by `setPiId`. -/
theorem rowMatches_setPiId (r : Row) (v : Val) (s : SensorRow) :
    rowMatches (setPiId r v) s = rowMatches r s := by
  unfold rowMatches
  rw [lookupCol_setPiId r v "location" (by decide),
    lookupCol_setPiId r v "piname" (by decide)]

/-- `removeCols` over an append splits. -/
theorem removeCols_append (cs : List String) (a b : Row) :
    removeCols cs (a ++ b) = removeCols cs a ++ removeCols cs b := by
  unfold removeCols
  exact List.filter_append a b

/-- `removeCols` on a nonempty row, by cases on the head entry. -/
theorem removeCols_cons (cs : List String) (p : String × Val)
    (l : List (String × Val)) :
    removeCols cs (p :: l) =
      if p.1 ∈ cs then removeCols cs l else p :: removeCols cs l := by
  unfold removeCols
  rw [List.filter_cons]
  by_cases h : p.1 ∈ cs
  · simp [h]
  · simp [h]

/-- Dropping a column list containing `pi_id` erases the effect of
`setPiId`. -/
theorem removeCols_setPiId (cs : List String) (r : Row) (v : Val)
    (h : "pi_id" ∈ cs) :
    removeCols cs (setPiId r v) = removeCols cs r := by
  induction r with
  | nil => rfl
  | cons p rest ih =>
      rcases p with ⟨n, w⟩
      show removeCols cs ((if n = "pi_id" then (n, v) else (n, w)) ::
        setPiId rest v) = removeCols cs ((n, w) :: rest)
      by_cases h1 : n = "pi_id"
      · rw [if_pos h1, removeCols_cons, removeCols_cons]
        show (if n ∈ cs then removeCols cs (setPiId rest v)
            else (n, v) :: removeCols cs (setPiId rest v)) =
          (if n ∈ cs then removeCols cs rest
            else (n, w) :: removeCols cs rest)
        have hn : n ∈ cs := h1.symm ▸ h
        rw [if_pos hn, if_pos hn]
        exact ih
      · rw [if_neg h1, removeCols_cons, removeCols_cons]
        show (if n ∈ cs then removeCols cs (setPiId rest v)
            else (n, w) :: removeCols cs (setPiId rest v)) =
          (if n ∈ cs then removeCols cs rest
            else (n, w) :: removeCols cs rest)
        by_cases h2 : n ∈ cs
        · rw [if_pos h2, if_pos h2]
          exact ih
        · rw [if_neg h2, if_neg h2, ih]

/-- Unfolding one step of the merge. -/
theorem mergeSensors_cons (r : Row) (raw : List Row)
    (sensors : List SensorRow) :
    mergeSensors (r :: raw) sensors =
      ((sensors.filter (fun s => rowMatches r s)).map
        (fun s => r ++ [("sensorid", Val.vInt s.sensorid)])) ++
        mergeSensors raw sensors := by
  unfold mergeSensors
  rw [List.flatMap_cons]

/-- After dropping the device columns, the block a raw row contributes
to the merge is unchanged by `setPiId`. -/
theorem dropBlock_setPiId (sensors : List SensorRow) (r : Row)
    (v : Val) :
    (((sensors.filter (fun s => rowMatches (setPiId r v) s)).map
        (fun s => setPiId r v ++
          [("sensorid", Val.vInt s.sensorid)])).map
      (removeCols dropList)) =
    (((sensors.filter (fun s => rowMatches r s)).map
        (fun s => r ++ [("sensorid", Val.vInt s.sensorid)])).map
      (removeCols dropList)) := by
  rw [List.filter_congr (fun s _ => rowMatches_setPiId r v s)]
  rw [List.map_map, List.map_map]
  apply List.map_congr_left
  intro s _
  show removeCols dropList
      (setPiId r v ++ [("sensorid", Val.vInt s.sensorid)]) =
    removeCols dropList (r ++ [("sensorid", Val.vInt s.sensorid)])
  rw [removeCols_append, removeCols_append,
    removeCols_setPiId dropList r v (by decide)]

/-- The merged-and-dropped table is unchanged by rewriting every row's
`pi_id` value. -/
theorem mergeDropped_setPiId (raw : List Row) (sensors : List SensorRow)
    (g : Row → Val) :
    ((mergeSensors ((raw.map (fun r => setPiId r (g r))).map
        msToTimestamp) sensors).map (removeCols dropList)) =
      ((mergeSensors (raw.map msToTimestamp) sensors).map
        (removeCols dropList)) := by
  induction raw with
  | nil => rfl
  | cons r rest ih =>
      simp only [List.map_cons]
      rw [msToTimestamp_setPiId, mergeSensors_cons, mergeSensors_cons]
      simp only [List.map_append]
      rw [ih, dropBlock_setPiId]

/-- Claim C3 (amended): the payload-normalization step performs no
verification of the device-identifier column at all — its entire
behavior (failure or success, and the produced canonical table) is
unchanged under arbitrary rewriting of every row's `pi_id` value.  In
particular a payload whose rows carry more than one distinct device id
is never rejected for that reason; its rows that do not match the
polled device's `(location, piname)` registry mapping are silently
dropped by the join. -/
theorem C3_device_id_irrelevant (raw : List Row)
    (sensors : List SensorRow) (g : Row → Val) :
    processTableE (raw.map (fun r => setPiId r (g r))) sensors =
      processTableE raw sensors := by
  unfold processTableE
  rw [dfColumns_setPiId, hasNonConv_setPiId, mergeDropped_setPiId]

/-! ## Claim C4 -/

/-- Claim C4: for every payload accepted by normalization, the canonical
table has at most one row per `(sensorid, datetime)` pair — after the
drop-duplicates step no two output rows share both key values. -/
theorem C4_dedup_unique_keys (raw : List Row) (sensors : List SensorRow)
    (out : List Row) (h : processTableE raw sensors = Except.ok out) :
    out.Pairwise (fun a b => dedupKey a ≠ dedupKey b) := by
  rw [processTableE_ok_eq raw sensors out h]
  exact (dedupAux_pairwise _ _).1

/-- Witness for C4 at a concrete accepted payload. -/
theorem C4_dedup_witness :
    ([sampleOut] : List Row).Pairwise
      (fun a b => dedupKey a ≠ dedupKey b) :=
  C4_dedup_unique_keys [sampleRow1] sampleSensors [sampleOut] rfl

/-! ## Claim C5 -/

/-- Claim C5: assuming the device's registry mapping has at most one
sensor per `(location, piname)` pair, every row of an accepted
normalization output arises from a raw payload row whose pair resolves
to exactly one known sensor, extended with that sensor's id and with the
device columns dropped; raw rows matching no sensor contribute nothing
to the output. -/
theorem C5_output_resolved (db : DB) (pi : String) (raw out : List Row)
    (huniq : (get_sensors_on_pi db pi).Pairwise
      (fun a b => (a.location, a.piname) ≠ (b.location, b.piname)))
    (h : processTableE raw (get_sensors_on_pi db pi) = Except.ok out) :
    ∀ r ∈ out, ∃ r₀ ∈ raw, ∃ s ∈ get_sensors_on_pi db pi,
      rowMatches (msToTimestamp r₀) s = true ∧
      (∀ s' ∈ get_sensors_on_pi db pi,
        rowMatches (msToTimestamp r₀) s' = true → s' = s) ∧
      r = removeCols dropList
        (msToTimestamp r₀ ++ [("sensorid", Val.vInt s.sensorid)]) := by
  intro r hr
  rw [processTableE_ok_eq _ _ _ h] at hr
  have hmem := dedupAux_subset _ _ r hr
  rcases List.mem_map.mp hmem with ⟨mrow, hmrow, rfl⟩
  rcases mem_mergeSensors _ _ _ hmrow with ⟨r', hr', s, hsmem, hmatch, rfl⟩
  rcases List.mem_map.mp hr' with ⟨r₀, hr₀, rfl⟩
  refine ⟨r₀, hr₀, s, hsmem, hmatch, ?_, rfl⟩
  intro s' hs' hmatch'
  by_contra hne
  have hR := List.Pairwise.forall
    (fun _ _ hab => fun he => hab he.symm) huniq hs' hsmem hne
  simp only [rowMatches, Bool.and_eq_true, decide_eq_true_eq]
    at hmatch hmatch'
  have hloc : s'.location = s.location :=
    Val.vStr.inj (Option.some.inj (hmatch'.1.symm.trans hmatch.1))
  have hpn : s'.piname = s.piname :=
    Val.vStr.inj (Option.some.inj (hmatch'.2.symm.trans hmatch.2))
  exact hR (by rw [hloc, hpn])

/-- Witness for C5 at a concrete payload and registry. -/
theorem C5_output_resolved_witness :
    ∃ r₀ ∈ [sampleRow1], ∃ s ∈ get_sensors_on_pi sampleDb "p1",
      rowMatches (msToTimestamp r₀) s = true ∧
      (∀ s' ∈ get_sensors_on_pi sampleDb "p1",
        rowMatches (msToTimestamp r₀) s' = true → s' = s) ∧
      sampleOut = removeCols dropList
        (msToTimestamp r₀ ++ [("sensorid", Val.vInt s.sensorid)]) :=
  C5_output_resolved sampleDb "p1" [sampleRow1] [sampleOut]
    (by decide) rfl sampleOut (by simp)

/-! ## Claim C6 -/

/-- Claim C6: a device with no stored readings gets the epoch sentinel
`datetime(1970, 1, 1)` (offset 0) as cursor, and the fetch request
encodes the rounded cursor as the fixed-width string `19700101000001`
inside `http://<device-address>:<port>/get_recent/<cutoff>`. -/
theorem C6_new_device_bootstrap (db : DB) (pi ip : String) (port : ℕ)
    (hempty : piCandidates db pi = [])
    (hip : get_ip_addr db pi = some ip) :
    get_last_time db pi = 0 ∧
    buildUrl ip port (round_up_seconds (get_last_time db pi)) =
      "http://" ++ ip ++ ":" ++ toString port ++ "/get_recent/" ++
        "19700101000001" := by
  have h0 : get_last_time db pi = 0 := by
    unfold get_last_time
    rw [hempty]
    rfl
  refine ⟨h0, ?_⟩
  rw [h0]
  unfold buildUrl
  have hstr : strftimeYmdHMS (round_up_seconds 0) = "19700101000001" := by
    decide
  rw [hstr]

/-- Witness for C6: the sample database stores nothing for pi `p1`. -/
theorem C6_new_device_bootstrap_witness :
    get_last_time sampleDb "p1" = 0 ∧
    buildUrl "10.0.0.7" 5002
        (round_up_seconds (get_last_time sampleDb "p1")) =
      "http://" ++ "10.0.0.7" ++ ":" ++ toString 5002 ++ "/get_recent/" ++
        "19700101000001" :=
  C6_new_device_bootstrap sampleDb "p1" "10.0.0.7" 5002 rfl rfl

/-! ## Claim C8 -/

/-- Claim C8 counterexample: the drop list is exactly
`[piname, location, sensortype, pi_id]`, so a surrogate row-id column
`id` carried by an accepted payload is *retained* in the canonical
table, contradicting "lacks any surrogate row-id column, leaving only
the sensor identifier, the timestamp, and the measurement fields". -/
theorem C8_counterexample :
    processTableE [sampleRow1] sampleSensors = Except.ok [sampleOut] ∧
    lookupCol sampleOut "id" = some (Val.vInt 101) :=
  ⟨rfl, rfl⟩

/-- Claim C8 (amended): the canonical table lacks the piname, location,
sensortype and pi_id columns (those are dropped after the join); any
other payload column, including a surrogate row-id column, is kept. -/
theorem C8_drops_device_columns (raw : List Row)
    (sensors : List SensorRow) (out : List Row)
    (h : processTableE raw sensors = Except.ok out) :
    ∀ r ∈ out, ∀ c ∈ dropList, lookupCol r c = none := by
  intro r hr c hc
  rw [processTableE_ok_eq _ _ _ h] at hr
  have hmem := dedupAux_subset _ _ r hr
  rcases List.mem_map.mp hmem with ⟨mrow, _, rfl⟩
  exact lookupCol_removeCols mrow dropList c hc

/-- Witness for the amended C8 at a concrete accepted payload. -/
theorem C8_drops_device_columns_witness :
    lookupCol sampleOut "piname" = none :=
  C8_drops_device_columns [sampleRow1] sampleSensors [sampleOut] rfl
    sampleOut (by simp) "piname" (by simp [dropList])

/-! ## Claim C9 -/

/-- The element selected by `order_by(datetime.desc()).first()` belongs
to the queried list. -/
theorem firstByDatetimeDesc_mem (l : List Meas) (m : Meas)
    (h : firstByDatetimeDesc l = some m) : m ∈ l := by
  induction l with
  | nil => exact Option.noConfusion h
  | cons a rest ih =>
      cases hfb : firstByDatetimeDesc rest with
      | none =>
          simp only [firstByDatetimeDesc, hfb] at h
          cases Option.some.inj h
          exact List.mem_cons_self _ _
      | some b =>
          simp only [firstByDatetimeDesc, hfb] at h
          by_cases hbd : b.datetime > a.datetime
          · rw [if_pos hbd] at h
            cases Option.some.inj h
            exact List.mem_cons_of_mem _ (ih hfb)
          · rw [if_neg hbd] at h
            cases Option.some.inj h
            exact List.mem_cons_self _ _

/-- `first()` on the descending-datetime ordering returns the strict
maximum when there is one. -/
theorem firstByDatetimeDesc_strict_max :
    ∀ (l : List Meas) (m : Meas), m ∈ l →
      (∀ x ∈ l, x ≠ m → x.datetime < m.datetime) →
      firstByDatetimeDesc l = some m := by
  intro l
  induction l with
  | nil =>
      intro m hm _
      cases hm
  | cons a rest ih =>
      intro m hm hmax
      rcases List.mem_cons.mp hm with heq | hrest
      · cases hfb : firstByDatetimeDesc rest with
        | none =>
            simp only [firstByDatetimeDesc, hfb]
            rw [heq]
        | some b =>
            simp only [firstByDatetimeDesc, hfb]
            by_cases hbe : b = m
            · rw [hbe, heq, if_neg (lt_irrefl _)]
            · have hbmem := firstByDatetimeDesc_mem rest b hfb
              have hlt := hmax b (List.mem_cons_of_mem _ hbmem) hbe
              rw [heq] at hlt
              rw [if_neg (not_lt.mpr (le_of_lt hlt)), heq]
      · have hfbr := ih m hrest
          (fun x hx => hmax x (List.mem_cons_of_mem _ hx))
        simp only [firstByDatetimeDesc, hfbr]
        by_cases hae : a = m
        · rw [hae, if_neg (lt_irrefl _)]
        · have hlt := hmax a (List.mem_cons_self _ _) hae
          rw [if_pos hlt]

/-- Claim C9: a canonical reading written via `save_recent_data` and
read back with `get_last_measurement_for_sensor` — when it is the most
recent reading for its sensor and the sensor and its pi exist —
reproduces the same sensor identifier and the same measurement field
values. -/
theorem C9_round_trip (db db' : DB) (rows : List Meas) (m : Meas)
    (s : SensorRec) (p : PiRec)
    (hsave : save_recent_data rows db = (db', true))
    (hm : m ∈ rows)
    (hmax : ∀ x ∈ db.measurements ++ rows, x ≠ m →
      x.sensorid = m.sensorid → x.datetime < m.datetime)
    (hs : db.sensors.find? (fun s' => s'.id = m.sensorid) = some s)
    (hp : db.pis.find? (fun p' => p'.id = s.piid) = some p) :
    ∃ r, get_last_measurement_for_sensor db' m.sensorid =
        Except.ok (some r) ∧
      r.sensorid = m.sensorid ∧ r.temp = m.temp ∧
      r.humidity = m.humidity ∧ r.pressure = m.pressure ∧
      r.gasvoc = m.gasvoc ∧ r.mcdvalue = m.mcdvalue ∧
      r.mcdvoltage = m.mcdvoltage := by
  have hdb' : db' = { db with measurements := db.measurements ++ rows } := by
    unfold save_recent_data at hsave
    split at hsave
    · injection hsave with h1 h2
      exact Bool.noConfusion h2
    · injection hsave with h1 h2
      exact h1.symm
  subst hdb'
  have hsmem := List.mem_of_find?_eq_some hs
  have hsid : s.id = m.sensorid := by
    have hfs := List.find?_some hs
    simpa using hfs
  have hpmem := List.mem_of_find?_eq_some hp
  have hpid : p.id = s.piid := by
    have hfp := List.find?_some hp
    simpa using hfp
  have hjoin : ∀ x : Meas, x.sensorid = m.sensorid →
      (db.sensors.any (fun s' => s'.id = x.sensorid &&
        s'.id = m.sensorid &&
        db.pis.any (fun p' => p'.id = s'.piid))) = true := by
    intro x hx
    apply List.any_eq_true.mpr
    refine ⟨s, hsmem, ?_⟩
    simp only [Bool.and_eq_true, decide_eq_true_eq]
    refine ⟨⟨by rw [hsid, hx], hsid⟩, ?_⟩
    exact List.any_eq_true.mpr ⟨p, hpmem, by
      simp only [decide_eq_true_eq]
      exact hpid⟩
  have hmcand : m ∈ sensorCandidates
      { db with measurements := db.measurements ++ rows } m.sensorid := by
    unfold sensorCandidates
    exact List.mem_filter.mpr
      ⟨List.mem_append.mpr (Or.inr hm), hjoin m rfl⟩
  have hmax' : ∀ x ∈ sensorCandidates
      { db with measurements := db.measurements ++ rows } m.sensorid,
      x ≠ m → x.datetime < m.datetime := by
    intro x hx hxe
    have hx' := List.mem_filter.mp hx
    have hxsid : x.sensorid = m.sensorid := by
      rcases List.any_eq_true.mp hx'.2 with ⟨s', _, hc⟩
      simp only [Bool.and_eq_true, decide_eq_true_eq] at hc
      exact hc.1.1 ▸ hc.1.2
    exact hmax x hx'.1 hxe hxsid
  have hfirst := firstByDatetimeDesc_strict_max _ m hmcand hmax'
  have hrow : get_row
      { db with measurements := db.measurements ++ rows } m =
      some (RowDict.mk m.datetime (strftimeDMYHMS m.datetime) m.sensorid
        s.location p.name m.temp m.humidity m.pressure m.gasvoc
        m.mcdvalue m.mcdvoltage) := by
    simp only [get_row, hs, Option.some_bind, hp, Option.map_some']
  simp only [get_last_measurement_for_sensor, hfirst, hrow]
  exact ⟨_, rfl, rfl, rfl, rfl, rfl, rfl, rfl, rfl⟩

/-- The database after saving `sampleMeas` into `sampleDb`. -/
def sampleDbSaved : DB := { sampleDb with measurements := [sampleMeas] }

/-- Witness for C9 at a concrete reading, sensor and pi. -/
theorem C9_round_trip_witness :
    sampleMeas ∈ [sampleMeas] ∧
    ∃ r, get_last_measurement_for_sensor sampleDbSaved
        sampleMeas.sensorid = Except.ok (some r) ∧
      r.sensorid = sampleMeas.sensorid ∧ r.temp = sampleMeas.temp ∧
      r.humidity = sampleMeas.humidity ∧
      r.pressure = sampleMeas.pressure ∧
      r.gasvoc = sampleMeas.gasvoc ∧
      r.mcdvalue = sampleMeas.mcdvalue ∧
      r.mcdvoltage = sampleMeas.mcdvoltage :=
  ⟨List.mem_cons_self _ _,
    C9_round_trip sampleDb sampleDbSaved [sampleMeas] sampleMeas
      (SensorRec.mk 5 "bay" "MCP" (some 0) "p1")
      (PiRec.mk "p1" "catflap" "10.0.0.7") rfl
      (List.mem_cons_self _ _)
      (by
        intro x hx hne _
        exact absurd (List.mem_singleton.mp hx) hne)
      rfl rfl⟩

/-! ## Claim C10 -/

/-- Claim C10: for a sensor id with no stored measurements,
`get_last_measurement_for_sensor` does not return `None` as its
docstring says: `first()` yields `None` without raising
`NoResultFound`, so `None.get_row()` raises `AttributeError` to the
caller. -/
theorem C10_attribute_error_on_empty (db : DB) (sid : ℤ)
    (h : ∀ x ∈ db.measurements, x.sensorid ≠ sid) :
    get_last_measurement_for_sensor db sid =
      Except.error ExcClass.attributeError ∧
    get_last_measurement_for_sensor db sid ≠ Except.ok none := by
  have hnil : sensorCandidates db sid = [] := by
    unfold sensorCandidates
    apply List.filter_eq_nil_iff.mpr
    intro x hx hcond
    rcases List.any_eq_true.mp hcond with ⟨s', _, hc⟩
    simp only [Bool.and_eq_true, decide_eq_true_eq] at hc
    exact h x hx (hc.1.1 ▸ hc.1.2)
  have h1 : get_last_measurement_for_sensor db sid =
      Except.error ExcClass.attributeError := by
    unfold get_last_measurement_for_sensor
    rw [hnil]
    rfl
  refine ⟨h1, ?_⟩
  rw [h1]
  exact fun hcon => Except.noConfusion hcon

/-- Witness for C10: the sample database stores no measurements at all. -/
theorem C10_attribute_error_witness :
    get_last_measurement_for_sensor sampleDb 5 =
      Except.error ExcClass.attributeError :=
  (C10_attribute_error_on_empty sampleDb 5
    (fun x hx => absurd hx (List.not_mem_nil x))).1

/-- Claim C7: for every datetime `d`, `round_up_seconds d` equals `d`
truncated to whole seconds plus one second; consequently it is strictly
greater than `d`, has zero sub-second component, and is at most one second
after `d`. -/
theorem C7_round_up_seconds (t : ℤ) :
    round_up_seconds t = truncSeconds t + 1000000 ∧
    t < round_up_seconds t ∧
    pyMicrosecond (round_up_seconds t) = 0 ∧
    round_up_seconds t ≤ t + 1000000 := by
  unfold round_up_seconds truncSeconds pyMicrosecond
  omega
